import Mathlib

/-!
Shallow embedding of `src/chaudiere_rendement.py`, a boiler-efficiency
calculator (class `CalculateurRendementChaudiere`).  Python float
arithmetic is modelled exactly over `ℚ`; a raised `ValueError` is
modelled as `Except.error` carrying a `CalcError`.  The source raises
`ValueError` with three distinct messages; the embedding distinguishes
them by constructor:
* `invalidArgument` for the two numeric-precondition messages,
* `unknownFuel` for the message built from an unrecognized fuel string.
Python division (`/`) raises `ZeroDivisionError` when the denominator is
zero; the one division site whose denominator is not guarded positive
(`puissance_utile / puissance_consommee`) is embedded with an explicit
zero test returning `CalcError.zeroDivision`.  Spec-name mapping:
DirectEfficiency = `rendement_direct`, ConsumptionBasedEfficiency =
`rendement_par_mesure_directe`, LossBasedEfficiency =
`rendement_par_pertes`, FullAnalysis = `analyse_complete`; fuels
natural_gas / heating_oil / propane / wood are the source keys
"gaz_naturel" / "fuel_domestique" / "propane" / "bois".
Source string literals are rendered without the apostrophe character.
-/

/-- Fuel properties record: lower (`pci`) and higher (`pcs`) heating value
in MJ per unit, as stored in `self.nom_combustible`. -/
structure FuelProps where
  pci : ℚ
  pcs : ℚ
deriving DecidableEq, Repr

/-- Siegert coefficients per fuel, the local `coefficients` dict of
`rendement_par_pertes`. -/
structure SiegertCoefficients where
  A1 : ℚ
  A2 : ℚ
deriving DecidableEq, Repr

/-- The error outcomes of the source: the two `ValueError` message families
and the unguarded `ZeroDivisionError` of Python float division. -/
inductive CalcError where
  | invalidArgument (msg : String)
  | unknownFuel (fuel : String)
  | zeroDivision
deriving DecidableEq, Repr

/-- Decidable equality on `Except`, used to evaluate the embedding at
concrete inputs. -/
instance {ε α : Type} [DecidableEq ε] [DecidableEq α] : DecidableEq (Except ε α)
  | .ok a, .ok b =>
      decidable_of_iff (a = b) ⟨fun h => by rw [h], fun h => by injection h⟩
  | .error a, .error b =>
      decidable_of_iff (a = b) ⟨fun h => by rw [h], fun h => by injection h⟩
  | .ok _, .error _ => isFalse (fun h => by injection h)
  | .error _, .ok _ => isFalse (fun h => by injection h)

/-- Message of the `ValueError` raised by `rendement_direct` (source
apostrophe elided). -/
def msgEnergie : String := "Lenergie consommee doit etre positive"

/-- Message of the `ValueError` raised by `rendement_par_pertes` on a
non-positive CO2 percentage. -/
def msgCO2 : String := "Le taux de CO2 doit etre positif"

/-- The fuel-properties table built in `__init__`: a dictionary keyed by
the four fuel strings, embedded as a lookup function. -/
def nom_combustible_table (s : String) : Option FuelProps :=
  if s = "gaz_naturel" then some ⟨35.17, 39.11⟩
  else if s = "fuel_domestique" then some ⟨42.6, 45.4⟩
  else if s = "propane" then some ⟨46.35, 50.35⟩
  else if s = "bois" then some ⟨15.0, 18.5⟩
  else none

/-- The local Siegert-coefficient dictionary of `rendement_par_pertes`. -/
def coefficients (s : String) : Option SiegertCoefficients :=
  if s = "gaz_naturel" then some ⟨0.66, 0.009⟩
  else if s = "fuel_domestique" then some ⟨0.68, 0.007⟩
  else if s = "propane" then some ⟨0.63, 0.008⟩
  else if s = "bois" then some ⟨0.65, 0.010⟩
  else none

/-- `rendement_direct`: direct efficiency.  Raises on non-positive
consumed energy, otherwise returns `(energie_utile / energie_consommee) * 100`
(the division is guarded, its denominator is positive). -/
def rendement_direct (energie_utile energie_consommee : ℚ) : Except CalcError ℚ :=
  if energie_consommee ≤ 0 then .error (.invalidArgument msgEnergie)
  else .ok ((energie_utile / energie_consommee) * 100)

/-- Result record of `rendement_par_mesure_directe`. -/
structure MesureDirecteResult where
  rendement : ℚ
  puissance_consommee : ℚ
  pouvoir_calorifique_utilise : String
deriving DecidableEq, Repr

/-- The f-string descriptor of `rendement_par_mesure_directe`:
`pc_key.upper() + ": " + str(pouvoir_calorifique) + " MJ/unité"`. -/
def formatPouvoirCalorifique (pc_key : String) (v : ℚ) : String :=
  pc_key.toUpper ++ ": " ++ toString v ++ " MJ/unité"

/-- Body of `rendement_par_mesure_directe`, parameterized by the
instance table `self.nom_combustible` it reads.  Python float division
`puissance_utile / puissance_consommee` raises `ZeroDivisionError` on a
zero denominator, embedded as the explicit zero test. -/
def rendement_par_mesure_directe_impl (table : String → Option FuelProps)
    (puissance_utile consommation_combustible : ℚ)
    (type_combustible : String) (utiliser_pci : Bool) :
    Except CalcError MesureDirecteResult :=
  match table type_combustible with
  | none => .error (.unknownFuel type_combustible)
  | some props =>
    let pc_key := if utiliser_pci then "pci" else "pcs"
    let pouvoir_calorifique := if utiliser_pci then props.pci else props.pcs
    let puissance_consommee := (consommation_combustible * pouvoir_calorifique) / 3.6
    if puissance_consommee = 0 then .error .zeroDivision
    else .ok { rendement := (puissance_utile / puissance_consommee) * 100,
               puissance_consommee := puissance_consommee,
               pouvoir_calorifique_utilise := formatPouvoirCalorifique pc_key pouvoir_calorifique }

/-- `rendement_par_mesure_directe` on a freshly constructed calculator
(whose table is `nom_combustible_table`).  The source defaults
`type_combustible = "gaz_naturel"` and `utiliser_pci = True` are passed
explicitly by callers of this embedding. -/
def rendement_par_mesure_directe (puissance_utile consommation_combustible : ℚ)
    (type_combustible : String) (utiliser_pci : Bool) :
    Except CalcError MesureDirecteResult :=
  rendement_par_mesure_directe_impl nom_combustible_table
    puissance_utile consommation_combustible type_combustible utiliser_pci

/-- Result record of `rendement_par_pertes`. -/
structure PertesResult where
  rendement : ℚ
  pertes_fumees : ℚ
  ecart_temperature : ℚ
  coefficients_utilises : String
deriving DecidableEq, Repr

/-- The f-string descriptor of `rendement_par_pertes`:
`"A1=" + str(A1) + ", A2=" + str(A2)`. -/
def formatCoefficients (A1 A2 : ℚ) : String :=
  "A1=" ++ toString A1 ++ ", A2=" ++ toString A2

/-- `rendement_par_pertes`: Siegert loss method.  Checks the fuel first,
computes `delta_t`, then checks `co2_percent`, then the loss formula
(the division by `co2_percent` is guarded positive). -/
def rendement_par_pertes (temp_fumees temp_air co2_percent : ℚ)
    (type_combustible : String) : Except CalcError PertesResult :=
  match coefficients type_combustible with
  | none => .error (.unknownFuel type_combustible)
  | some A =>
    let delta_t := temp_fumees - temp_air
    if co2_percent ≤ 0 then .error (.invalidArgument msgCO2)
    else
      let pertes_fumees := (A.A1 * delta_t / co2_percent) + (A.A2 * delta_t)
      .ok { rendement := 100 - pertes_fumees,
            pertes_fumees := pertes_fumees,
            ecart_temperature := delta_t,
            coefficients_utilises := formatCoefficients A.A1 A.A2 }

/-- The `**kwargs` bag of `analyse_complete`: every key that the body
looks up, each optionally present.  Field order:
energie_utile, energie_consommee, puissance_utile,
consommation_combustible, temp_fumees, temp_air, co2_percent,
type_combustible, utiliser_pci. -/
structure Kwargs where
  energie_utile : Option ℚ
  energie_consommee : Option ℚ
  puissance_utile : Option ℚ
  consommation_combustible : Option ℚ
  temp_fumees : Option ℚ
  temp_air : Option ℚ
  co2_percent : Option ℚ
  type_combustible : Option String
  utiliser_pci : Option Bool
deriving DecidableEq, Repr

/-- The `resultats` dictionary of `analyse_complete`: up to three entries,
keyed methode_directe / mesure_directe / methode_pertes. -/
structure AnalyseResultats where
  methode_directe : Option ℚ
  mesure_directe : Option MesureDirecteResult
  methode_pertes : Option PertesResult
deriving DecidableEq, Repr

/-- The direct-method call `analyse_complete` makes when both
`energie_utile` and `energie_consommee` are present, `none` otherwise. -/
def directCall (kw : Kwargs) : Option (Except CalcError ℚ) :=
  match kw.energie_utile, kw.energie_consommee with
  | some eu, some ec => some (rendement_direct eu ec)
  | _, _ => none

/-- The consumption-method call `analyse_complete` makes (on table
`table`) when both `puissance_utile` and `consommation_combustible` are
present, with `kwargs.get` defaults for fuel and heating-value flag. -/
def mesureCallWith (table : String → Option FuelProps) (kw : Kwargs) :
    Option (Except CalcError MesureDirecteResult) :=
  match kw.puissance_utile, kw.consommation_combustible with
  | some pu, some cc =>
      some (rendement_par_mesure_directe_impl table pu cc
        (kw.type_combustible.getD "gaz_naturel") (kw.utiliser_pci.getD true))
  | _, _ => none

/-- `mesureCallWith` on the fresh calculator table. -/
def mesureCall (kw : Kwargs) : Option (Except CalcError MesureDirecteResult) :=
  mesureCallWith nom_combustible_table kw

/-- The loss-method call `analyse_complete` makes when all three of
`temp_fumees`, `temp_air`, `co2_percent` are present, with the
`kwargs.get` fuel default. -/
def pertesCall (kw : Kwargs) : Option (Except CalcError PertesResult) :=
  match kw.temp_fumees, kw.temp_air, kw.co2_percent with
  | some tf, some ta, some co2 =>
      some (rendement_par_pertes tf ta co2 (kw.type_combustible.getD "gaz_naturel"))
  | _, _, _ => none

/-- One conditional step of `analyse_complete`: when the method is not
triggered its entry stays absent; when it is, the call runs and its
error (a raised exception in the source) propagates. -/
def optStep {α : Type} : Option (Except CalcError α) → Except CalcError (Option α)
  | none => .ok none
  | some r => r.map some

/-- Body of `analyse_complete`, parameterized by the instance table:
runs each method in source order iff its inputs are present, collecting
entries; a raised error aborts the whole call. -/
def analyse_complete_impl (table : String → Option FuelProps) (kw : Kwargs) :
    Except CalcError AnalyseResultats := do
  let d ← optStep (directCall kw)
  let m ← optStep (mesureCallWith table kw)
  let p ← optStep (pertesCall kw)
  pure ⟨d, m, p⟩

/-- `analyse_complete` on a freshly constructed calculator. -/
def analyse_complete (kw : Kwargs) : Except CalcError AnalyseResultats :=
  analyse_complete_impl nom_combustible_table kw

/-- The calculator object: `__init__` stores the fuel-properties
dictionary on the instance; it is the only instance state. -/
structure CalculateurRendementChaudiere where
  nom_combustible : String → Option FuelProps

/-- A freshly constructed calculator. -/
def initCalculateur : CalculateurRendementChaudiere := ⟨nom_combustible_table⟩

/-- One call to the public interface: the four operations with their
arguments (the source defaults are spelled out by the caller). -/
inductive Op where
  | direct (u c : ℚ)
  | mesure (pu cc : ℚ) (fuel : String) (upci : Bool)
  | pertes (tf ta co2 : ℚ) (fuel : String)
  | analyse (kw : Kwargs)

/-- The value returned (or the exception raised) by one call. -/
inductive OpOutput where
  | direct (r : Except CalcError ℚ)
  | mesure (r : Except CalcError MesureDirecteResult)
  | pertes (r : Except CalcError PertesResult)
  | analyse (r : Except CalcError AnalyseResultats)

/-- Run one call on a calculator: each method reads the instance state it
uses (`self.nom_combustible` for the consumption method and the
aggregate) and the method bodies contain no assignment, so the state
component is returned as received. -/
def runOp (st : CalculateurRendementChaudiere) :
    Op → OpOutput × CalculateurRendementChaudiere
  | .direct u c => (.direct (rendement_direct u c), st)
  | .mesure pu cc fuel upci =>
      (.mesure (rendement_par_mesure_directe_impl st.nom_combustible pu cc fuel upci), st)
  | .pertes tf ta co2 fuel => (.pertes (rendement_par_pertes tf ta co2 fuel), st)
  | .analyse kw => (.analyse (analyse_complete_impl st.nom_combustible kw), st)

/-- Run a sequence of calls, keeping the calculator state. -/
def runOps (st : CalculateurRendementChaudiere) (ops : List Op) :
    CalculateurRendementChaudiere :=
  ops.foldl (fun s op => (runOp s op).2) st

/-- Every heating value stored in the fuel table is strictly positive. -/
theorem nom_combustible_table_pos (fuel : String) (p : FuelProps)
    (h : nom_combustible_table fuel = some p) : 0 < p.pci ∧ 0 < p.pcs := by
  unfold nom_combustible_table at h
  split at h
  · cases h; constructor <;> norm_num
  · split at h
    · cases h; constructor <;> norm_num
    · split at h
      · cases h; constructor <;> norm_num
      · split at h
        · cases h; constructor <;> norm_num
        · cases h

/-- Helper: on a positive denominator `rendement_direct` returns the ratio
times 100. -/
theorem direct_ok (u c : ℚ) (hc : 0 < c) :
    rendement_direct u c = .ok ((u / c) * 100) := by
  unfold rendement_direct
  rw [if_neg (not_le.mpr hc)]

/-- Helper: on a non-positive denominator `rendement_direct` raises. -/
theorem direct_err (u c : ℚ) (hc : c ≤ 0) :
    rendement_direct u c = .error (.invalidArgument msgEnergie) := by
  unfold rendement_direct
  rw [if_pos hc]

/-- Helper: with recognized coefficients and positive CO2,
`rendement_par_pertes` returns the Siegert record. -/
theorem pertes_ok (tf ta co2 : ℚ) (fuel : String) (A : SiegertCoefficients)
    (hf : coefficients fuel = some A) (hco2 : 0 < co2) :
    rendement_par_pertes tf ta co2 fuel =
      .ok { rendement := 100 - ((A.A1 * (tf - ta) / co2) + (A.A2 * (tf - ta))),
            pertes_fumees := (A.A1 * (tf - ta) / co2) + (A.A2 * (tf - ta)),
            ecart_temperature := tf - ta,
            coefficients_utilises := formatCoefficients A.A1 A.A2 } := by
  unfold rendement_par_pertes
  rw [hf]
  dsimp only
  rw [if_neg (not_le.mpr hco2)]

/-- Helper: with recognized coefficients and non-positive CO2,
`rendement_par_pertes` raises the CO2 `ValueError`. -/
theorem pertes_err_co2 (tf ta co2 : ℚ) (fuel : String) (A : SiegertCoefficients)
    (hf : coefficients fuel = some A) (hco2 : co2 ≤ 0) :
    rendement_par_pertes tf ta co2 fuel = .error (.invalidArgument msgCO2) := by
  unfold rendement_par_pertes
  rw [hf]
  dsimp only
  rw [if_pos hco2]

/-- Helper: with a recognized fuel and non-zero consumed power,
`rendement_par_mesure_directe` returns the record of the source formulas. -/
theorem mesure_ok_den (pu cc : ℚ) (fuel : String) (p : FuelProps) (upci : Bool)
    (hf : nom_combustible_table fuel = some p)
    (hz : (cc * (if upci then p.pci else p.pcs)) / 3.6 ≠ 0) :
    rendement_par_mesure_directe pu cc fuel upci =
      .ok { rendement := (pu / ((cc * (if upci then p.pci else p.pcs)) / 3.6)) * 100,
            puissance_consommee := (cc * (if upci then p.pci else p.pcs)) / 3.6,
            pouvoir_calorifique_utilise :=
              formatPouvoirCalorifique (if upci then "pci" else "pcs")
                (if upci then p.pci else p.pcs) } := by
  unfold rendement_par_mesure_directe rendement_par_mesure_directe_impl
  rw [hf]
  dsimp only
  rw [if_neg hz]

/-- Helper: with a recognized fuel and non-zero consumption,
`rendement_par_mesure_directe` returns the record of the source formulas
(the stored heating values are all positive, so the consumed power is
non-zero). -/
theorem mesure_ok (pu cc : ℚ) (fuel : String) (p : FuelProps) (upci : Bool)
    (hf : nom_combustible_table fuel = some p) (hcc : cc ≠ 0) :
    rendement_par_mesure_directe pu cc fuel upci =
      .ok { rendement := (pu / ((cc * (if upci then p.pci else p.pcs)) / 3.6)) * 100,
            puissance_consommee := (cc * (if upci then p.pci else p.pcs)) / 3.6,
            pouvoir_calorifique_utilise :=
              formatPouvoirCalorifique (if upci then "pci" else "pcs")
                (if upci then p.pci else p.pcs) } := by
  have hpc : (0 : ℚ) < (if upci then p.pci else p.pcs) := by
    rcases nom_combustible_table_pos fuel p hf with ⟨h1, h2⟩
    cases upci <;> simpa
  exact mesure_ok_den pu cc fuel p upci hf
    (div_ne_zero (mul_ne_zero hcc (ne_of_gt hpc)) (by norm_num))

/-- Helper: with a recognized fuel and zero consumed power, the unguarded
division raises `ZeroDivisionError`. -/
theorem mesure_err_div (pu cc : ℚ) (fuel : String) (p : FuelProps) (upci : Bool)
    (hf : nom_combustible_table fuel = some p)
    (hz : (cc * (if upci then p.pci else p.pcs)) / 3.6 = 0) :
    rendement_par_mesure_directe pu cc fuel upci = .error .zeroDivision := by
  unfold rendement_par_mesure_directe rendement_par_mesure_directe_impl
  rw [hf]
  dsimp only
  rw [if_pos hz]

/-- Helper: with a recognized fuel and zero consumption, the consumed
power is zero and the unguarded division raises `ZeroDivisionError`. -/
theorem mesure_zero (pu : ℚ) (fuel : String) (p : FuelProps) (upci : Bool)
    (hf : nom_combustible_table fuel = some p) :
    rendement_par_mesure_directe pu 0 fuel upci = .error .zeroDivision :=
  mesure_err_div pu 0 fuel p upci hf (by rw [zero_mul, zero_div])

/-- Helper: on a recognized fuel, `rendement_par_mesure_directe` never
reports an unknown fuel (its outcome is the zero-division error or a
normal record). -/
theorem mesure_not_unknown (pu cc : ℚ) (fuel : String) (p : FuelProps) (upci : Bool)
    (hf : nom_combustible_table fuel = some p) (f : String) :
    rendement_par_mesure_directe pu cc fuel upci ≠ .error (.unknownFuel f) := by
  by_cases hz : (cc * (if upci then p.pci else p.pcs)) / 3.6 = 0
  · rw [mesure_err_div pu cc fuel p upci hf hz]
    simp
  · rw [mesure_ok_den pu cc fuel p upci hf hz]
    simp

/-- Helper: on a recognized fuel, `rendement_par_pertes` never reports an
unknown fuel (its outcome is the CO2 error or a normal record). -/
theorem pertes_not_unknown (tf ta co2 : ℚ) (fuel : String) (A : SiegertCoefficients)
    (hf : coefficients fuel = some A) (f : String) :
    rendement_par_pertes tf ta co2 fuel ≠ .error (.unknownFuel f) := by
  unfold rendement_par_pertes
  rw [hf]
  dsimp only
  split <;> simp

/-- Helper: on an unrecognized fuel the fuel-properties lookup is empty. -/
theorem nom_combustible_table_none (fuel : String)
    (h1 : fuel ≠ "gaz_naturel") (h2 : fuel ≠ "fuel_domestique")
    (h3 : fuel ≠ "propane") (h4 : fuel ≠ "bois") :
    nom_combustible_table fuel = none := by
  unfold nom_combustible_table
  rw [if_neg h1, if_neg h2, if_neg h3, if_neg h4]

/-- Helper: on an unrecognized fuel the Siegert lookup is empty. -/
theorem coefficients_none (fuel : String)
    (h1 : fuel ≠ "gaz_naturel") (h2 : fuel ≠ "fuel_domestique")
    (h3 : fuel ≠ "propane") (h4 : fuel ≠ "bois") :
    coefficients fuel = none := by
  unfold coefficients
  rw [if_neg h1, if_neg h2, if_neg h3, if_neg h4]

/-- C1: for every `energie_utile` and every `energie_consommee > 0`,
`rendement_direct` returns exactly `(energie_utile / energie_consommee) * 100`,
with no clamping; in particular the unchanged result exceeds 100 at
(150, 100) and is negative at (-5, 10). -/
theorem rendement_direct_exact :
    (∀ u c : ℚ, 0 < c → rendement_direct u c = .ok ((u / c) * 100)) ∧
    rendement_direct 150 100 = .ok 150 ∧
    rendement_direct (-5) 10 = .ok (-50) := by
  refine ⟨direct_ok, ?_, ?_⟩
  · rw [direct_ok 150 100 (by norm_num)]
    congr 1
    norm_num
  · rw [direct_ok (-5) 10 (by norm_num)]
    congr 1
    norm_num

/-- C1 witness: the general clause of `rendement_direct_exact` applied at
the concrete input (150, 100). -/
theorem rendement_direct_exact_witness :
    rendement_direct 150 100 = .ok ((150 / 100) * 100) :=
  rendement_direct_exact.1 150 100 (by norm_num)

/-- C2: for every pair of temperatures, every positive CO2 percentage and
every recognized fuel, `rendement_par_pertes` returns
`ecart_temperature = temp_fumees - temp_air` (negative deltas included,
never rejected), the Siegert loss
`(A1 * delta / co2) + (A2 * delta)` with that fuel's table coefficients,
and `rendement = 100 -` that loss. -/
theorem rendement_par_pertes_formula (tf ta co2 : ℚ) (fuel : String)
    (A : SiegertCoefficients) (hf : coefficients fuel = some A) (hco2 : 0 < co2) :
    rendement_par_pertes tf ta co2 fuel =
      .ok { rendement := 100 - ((A.A1 * (tf - ta) / co2) + (A.A2 * (tf - ta))),
            pertes_fumees := (A.A1 * (tf - ta) / co2) + (A.A2 * (tf - ta)),
            ecart_temperature := tf - ta,
            coefficients_utilises := formatCoefficients A.A1 A.A2 } :=
  pertes_ok tf ta co2 fuel A hf hco2

/-- C2 witness: `rendement_par_pertes_formula` at (10, 30, 5, gaz_naturel),
a negative temperature delta, with the natural-gas coefficients. -/
theorem rendement_par_pertes_formula_witness :
    rendement_par_pertes 10 30 5 "gaz_naturel" =
      .ok { rendement := 100 - (((0.66 : ℚ) * (10 - 30) / 5) + ((0.009 : ℚ) * (10 - 30))),
            pertes_fumees := ((0.66 : ℚ) * (10 - 30) / 5) + ((0.009 : ℚ) * (10 - 30)),
            ecart_temperature := (10 : ℚ) - 30,
            coefficients_utilises := formatCoefficients 0.66 0.009 } :=
  rendement_par_pertes_formula 10 30 5 "gaz_naturel" ⟨0.66, 0.009⟩ rfl (by norm_num)

/-- C8: `rendement_par_pertes` at (180, 20, 10, gaz_naturel) returns
exactly delta 160, loss 12 and efficiency 88, with coefficients
A1 = 0.66 and A2 = 0.009 (arithmetic modelled exactly over `ℚ`). -/
theorem pertes_gaz_naturel_example :
    rendement_par_pertes 180 20 10 "gaz_naturel" =
      .ok { rendement := 88, pertes_fumees := 12, ecart_temperature := 160,
            coefficients_utilises := formatCoefficients 0.66 0.009 } := by
  rw [pertes_ok 180 20 10 "gaz_naturel" ⟨0.66, 0.009⟩ rfl (by norm_num)]
  simp only [Except.ok.injEq, PertesResult.mk.injEq]
  norm_num

/-- C3 counterexample: at usefulPower 20, fuelConsumptionRate 0,
natural gas, lower heating value, `rendement_par_mesure_directe` does not
return a result record at all: the unguarded division raises
`ZeroDivisionError`, refuting the claim for every fuelConsumptionRate. -/
theorem mesure_directe_zero_counterexample :
    rendement_par_mesure_directe 20 0 "gaz_naturel" true = .error .zeroDivision :=
  mesure_zero 20 "gaz_naturel" ⟨35.17, 39.11⟩ true rfl

/-- C3 (amended: for every non-zero fuelConsumptionRate): on a recognized
fuel, `rendement_par_mesure_directe` selects `pci` when `utiliser_pci`
and `pcs` otherwise, computes
`puissance_consommee = (consommation * pouvoir_calorifique) / 3.6`,
and returns `rendement = (puissance_utile / puissance_consommee) * 100`
together with the consumed power and the heating-value descriptor; at
(20, 2.5, gaz_naturel, pci) the heating value is 35.17, the consumed
power is 3517/144 (within 0.005 of 24.42) and the efficiency is
288000/3517 (within 0.05 of 81.9). -/
theorem mesure_directe_formula (pu cc : ℚ) (fuel : String) (p : FuelProps) (upci : Bool)
    (hf : nom_combustible_table fuel = some p) (hcc : cc ≠ 0) :
    (rendement_par_mesure_directe pu cc fuel upci =
      .ok { rendement := (pu / ((cc * (if upci then p.pci else p.pcs)) / 3.6)) * 100,
            puissance_consommee := (cc * (if upci then p.pci else p.pcs)) / 3.6,
            pouvoir_calorifique_utilise :=
              formatPouvoirCalorifique (if upci then "pci" else "pcs")
                (if upci then p.pci else p.pcs) }) ∧
    (rendement_par_mesure_directe 20 2.5 "gaz_naturel" true =
      .ok { rendement := 288000 / 3517, puissance_consommee := 3517 / 144,
            pouvoir_calorifique_utilise := formatPouvoirCalorifique "pci" 35.17 } ∧
     |(288000 / 3517 : ℚ) - 81.9| < 0.05 ∧ |(3517 / 144 : ℚ) - 24.42| < 0.005) := by
  refine ⟨mesure_ok pu cc fuel p upci hf hcc, ?_,
    by rw [abs_lt]; constructor <;> norm_num, by rw [abs_lt]; constructor <;> norm_num⟩
  rw [mesure_ok 20 2.5 "gaz_naturel" ⟨35.17, 39.11⟩ true rfl (by norm_num)]
  simp only [Except.ok.injEq, MesureDirecteResult.mk.injEq, if_true]
  norm_num

/-- C3 witness: `mesure_directe_formula` applied at
(20, 2.5, gaz_naturel, pci). -/
theorem mesure_directe_formula_witness :
    rendement_par_mesure_directe 20 2.5 "gaz_naturel" true =
      .ok { rendement := ((20 : ℚ) / (((2.5 : ℚ) * 35.17) / 3.6)) * 100,
            puissance_consommee := ((2.5 : ℚ) * 35.17) / 3.6,
            pouvoir_calorifique_utilise := formatPouvoirCalorifique "pci" 35.17 } :=
  (mesure_directe_formula 20 2.5 "gaz_naturel" ⟨35.17, 39.11⟩ true rfl (by norm_num)).1

/-- C6: `rendement_direct` raises InvalidArgument exactly on
non-positive consumed energy and returns normally exactly on positive
consumed energy; `rendement_par_pertes` on a recognized fuel raises
InvalidArgument exactly on non-positive CO2 and returns normally exactly
on positive CO2. -/
theorem invalid_argument_conditions :
    (∀ u c : ℚ, (∃ m, rendement_direct u c = .error (.invalidArgument m)) ↔ c ≤ 0) ∧
    (∀ u c : ℚ, (∃ r, rendement_direct u c = .ok r) ↔ 0 < c) ∧
    (∀ tf ta co2 : ℚ, ∀ fuel : String, ∀ A : SiegertCoefficients,
      coefficients fuel = some A →
      ((∃ m, rendement_par_pertes tf ta co2 fuel = .error (.invalidArgument m)) ↔ co2 ≤ 0) ∧
      ((∃ r, rendement_par_pertes tf ta co2 fuel = .ok r) ↔ 0 < co2)) := by
  refine ⟨fun u c => ⟨?_, fun hc => ⟨msgEnergie, direct_err u c hc⟩⟩,
    fun u c => ⟨?_, fun hc => ⟨_, direct_ok u c hc⟩⟩,
    fun tf ta co2 fuel A hf =>
      ⟨⟨?_, fun hco2 => ⟨msgCO2, pertes_err_co2 tf ta co2 fuel A hf hco2⟩⟩,
       ⟨?_, fun hco2 => ⟨_, pertes_ok tf ta co2 fuel A hf hco2⟩⟩⟩⟩
  · rintro ⟨m, hm⟩
    by_contra hc
    rw [direct_ok u c (lt_of_not_le hc)] at hm
    exact Except.noConfusion hm
  · rintro ⟨r, hr⟩
    by_contra hc
    rw [direct_err u c (le_of_not_lt hc)] at hr
    exact Except.noConfusion hr
  · rintro ⟨m, hm⟩
    by_contra hc
    rw [pertes_ok tf ta co2 fuel A hf (lt_of_not_le hc)] at hm
    exact Except.noConfusion hm
  · rintro ⟨r, hr⟩
    by_contra hc
    rw [pertes_err_co2 tf ta co2 fuel A hf (le_of_not_lt hc)] at hr
    exact Except.noConfusion hr

/-- C6 witness: `invalid_argument_conditions` instantiated: the direct
method raises InvalidArgument at consumed energy 0 and the loss method
raises InvalidArgument at CO2 percentage -3 on natural gas. -/
theorem invalid_argument_conditions_witness :
    (∃ m, rendement_direct 5 0 = .error (.invalidArgument m)) ∧
    (∃ m, rendement_par_pertes 180 20 (-3) "gaz_naturel" = .error (.invalidArgument m)) :=
  ⟨(invalid_argument_conditions.1 5 0).mpr le_rfl,
   ((invalid_argument_conditions.2.2 180 20 (-3) "gaz_naturel" ⟨0.66, 0.009⟩ rfl).1).mpr
     (by norm_num)⟩

/-- C7: the consumption and loss methods recognize exactly the same four
fuels: for every identifier outside the four table keys both return the
UnknownFuel error, and for every identifier among the four neither ever
does. -/
theorem unknown_fuel_conditions (fuel : String) (pu cc tf ta co2 : ℚ) (upci : Bool) :
    ((nom_combustible_table fuel).isSome ↔ (coefficients fuel).isSome) ∧
    (fuel ≠ "gaz_naturel" ∧ fuel ≠ "fuel_domestique" ∧ fuel ≠ "propane" ∧ fuel ≠ "bois" →
      rendement_par_mesure_directe pu cc fuel upci = .error (.unknownFuel fuel) ∧
      rendement_par_pertes tf ta co2 fuel = .error (.unknownFuel fuel)) ∧
    ((fuel = "gaz_naturel" ∨ fuel = "fuel_domestique" ∨ fuel = "propane" ∨ fuel = "bois") →
      (∀ f, rendement_par_mesure_directe pu cc fuel upci ≠ .error (.unknownFuel f)) ∧
      (∀ f, rendement_par_pertes tf ta co2 fuel ≠ .error (.unknownFuel f))) := by
  refine ⟨?_, ?_, ?_⟩
  · unfold nom_combustible_table coefficients
    split_ifs <;> simp
  · rintro ⟨h1, h2, h3, h4⟩
    constructor
    · unfold rendement_par_mesure_directe rendement_par_mesure_directe_impl
      rw [nom_combustible_table_none fuel h1 h2 h3 h4]
    · unfold rendement_par_pertes
      rw [coefficients_none fuel h1 h2 h3 h4]
  · rintro (h | h | h | h) <;> subst h <;>
      exact ⟨mesure_not_unknown pu cc _ _ upci rfl, pertes_not_unknown tf ta co2 _ _ rfl⟩

/-- C7 witness: `unknown_fuel_conditions` at the unrecognized identifier
"charbon": both methods return the UnknownFuel error. -/
theorem unknown_fuel_conditions_witness :
    rendement_par_mesure_directe 1 1 "charbon" true = .error (.unknownFuel "charbon") ∧
    rendement_par_pertes 180 20 10 "charbon" = .error (.unknownFuel "charbon") :=
  (unknown_fuel_conditions "charbon" 1 1 180 20 10 true).2.1
    ⟨by decide, by decide, by decide, by decide⟩

/-- C10: on every recognized fuel, `rendement_par_mesure_directe` at
fuelConsumptionRate 0 has consumed power (0 * heatingValue) / 3.6 = 0 and
fails with the zero-division error, which is neither an InvalidArgument
nor an UnknownFuel failure; both stored heating values are strictly
positive, and for every positive rate the operation returns a record. -/
theorem mesure_directe_division_guard (pu : ℚ) (fuel : String) (p : FuelProps) (upci : Bool)
    (hf : nom_combustible_table fuel = some p) :
    rendement_par_mesure_directe pu 0 fuel upci = .error .zeroDivision ∧
    ((0 : ℚ) * (if upci then p.pci else p.pcs)) / 3.6 = 0 ∧
    (∀ m, (CalcError.zeroDivision : CalcError) ≠ .invalidArgument m) ∧
    (∀ f, (CalcError.zeroDivision : CalcError) ≠ .unknownFuel f) ∧
    (0 < p.pci ∧ 0 < p.pcs) ∧
    (∀ cc : ℚ, 0 < cc → ∃ r, rendement_par_mesure_directe pu cc fuel upci = .ok r) :=
  ⟨mesure_zero pu fuel p upci hf,
   by rw [zero_mul, zero_div],
   fun m h => CalcError.noConfusion h,
   fun f h => CalcError.noConfusion h,
   nom_combustible_table_pos fuel p hf,
   fun cc hcc => ⟨_, mesure_ok pu cc fuel p upci hf (ne_of_gt hcc)⟩⟩

/-- C10 witness: `mesure_directe_division_guard` at
(20, gaz_naturel, pci): the rate-0 call returns the zero-division
error. -/
theorem mesure_directe_division_guard_witness :
    rendement_par_mesure_directe 20 0 "gaz_naturel" false = .error .zeroDivision :=
  (mesure_directe_division_guard 20 "gaz_naturel" ⟨35.17, 39.11⟩ false rfl).1

/-- Helper: bind on a success applies the continuation. -/
theorem except_bind_ok {ε α β : Type} (a : α) (f : α → Except ε β) :
    (Except.ok a >>= f) = f a := rfl

/-- Helper: bind on an error propagates the error. -/
theorem except_bind_err {ε α β : Type} (e : ε) (f : α → Except ε β) :
    ((Except.error e : Except ε α) >>= f) = .error e := rfl

/-- Helper: pure is success. -/
theorem except_pure {ε α : Type} (a : α) : (pure a : Except ε α) = .ok a := rfl

/-- Helper: `optStep` succeeds with `none` on an absent call and with
`some` on a successful call. -/
theorem optStep_eq_ok {α : Type} (X : Option (Except CalcError α)) (o : Option α) :
    optStep X = .ok o ↔ ((X = none ∧ o = none) ∨ ∃ a, X = some (.ok a) ∧ o = some a) := by
  cases X with
  | none => simp [optStep, eq_comm]
  | some r => cases r <;> simp [optStep, Except.map, eq_comm]

/-- Helper: `optStep` fails exactly when the triggered call fails. -/
theorem optStep_eq_err {α : Type} (X : Option (Except CalcError α)) (e : CalcError) :
    optStep X = .error e ↔ X = some (.error e) := by
  cases X with
  | none => simp [optStep]
  | some r => cases r <;> simp [optStep, Except.map]

/-- Helper: success-shape of the aggregate: it succeeds exactly when all
three conditional steps succeed, and the entries are the step values. -/
theorem analyse_eq_ok (table : String → Option FuelProps) (kw : Kwargs)
    (res : AnalyseResultats) :
    analyse_complete_impl table kw = .ok res ↔
      optStep (directCall kw) = .ok res.methode_directe ∧
      optStep (mesureCallWith table kw) = .ok res.mesure_directe ∧
      optStep (pertesCall kw) = .ok res.methode_pertes := by
  obtain ⟨rd, rm, rp⟩ := res
  unfold analyse_complete_impl
  cases hD : optStep (directCall kw) <;> cases hM : optStep (mesureCallWith table kw) <;>
    cases hP : optStep (pertesCall kw) <;>
      simp [except_bind_ok, except_bind_err, except_pure, AnalyseResultats.mk.injEq,
        and_assoc, eq_comm]

/-- Helper: failure-shape of the aggregate: it fails exactly when a
conditional step fails, all earlier steps having succeeded. -/
theorem analyse_eq_err (table : String → Option FuelProps) (kw : Kwargs) (e : CalcError) :
    analyse_complete_impl table kw = .error e ↔
      optStep (directCall kw) = .error e ∨
      ((∃ d, optStep (directCall kw) = .ok d) ∧
        optStep (mesureCallWith table kw) = .error e) ∨
      ((∃ d, optStep (directCall kw) = .ok d) ∧
        (∃ m, optStep (mesureCallWith table kw) = .ok m) ∧
        optStep (pertesCall kw) = .error e) := by
  unfold analyse_complete_impl
  cases hD : optStep (directCall kw) <;> cases hM : optStep (mesureCallWith table kw) <;>
    cases hP : optStep (pertesCall kw) <;>
      simp [except_bind_ok, except_bind_err, except_pure]

/-- Helper: the direct method is triggered exactly when both of its bag
fields are present. -/
theorem directCall_isSome (kw : Kwargs) :
    (directCall kw).isSome ↔ (kw.energie_utile.isSome ∧ kw.energie_consommee.isSome) := by
  obtain ⟨eu, ec, pu, cc, tf, ta, co2, fuel, upci⟩ := kw
  cases eu <;> cases ec <;> simp [directCall]

/-- Helper: the consumption method is triggered exactly when both of its
bag fields are present. -/
theorem mesureCallWith_isSome (table : String → Option FuelProps) (kw : Kwargs) :
    (mesureCallWith table kw).isSome ↔
      (kw.puissance_utile.isSome ∧ kw.consommation_combustible.isSome) := by
  obtain ⟨eu, ec, pu, cc, tf, ta, co2, fuel, upci⟩ := kw
  cases pu <;> cases cc <;> simp [mesureCallWith]

/-- Helper: the loss method is triggered exactly when its three bag
fields are present. -/
theorem pertesCall_isSome (kw : Kwargs) :
    (pertesCall kw).isSome ↔
      (kw.temp_fumees.isSome ∧ kw.temp_air.isSome ∧ kw.co2_percent.isSome) := by
  obtain ⟨eu, ec, pu, cc, tf, ta, co2, fuel, upci⟩ := kw
  cases tf <;> cases ta <;> cases co2 <;> simp [pertesCall]

/-- Helper: a successful conditional step yields exactly the value of the
triggered call, present exactly when the call was triggered. -/
theorem entry_of_optStep {α : Type} (X : Option (Except CalcError α)) (o : Option α)
    (h : optStep X = .ok o) :
    o = X.bind Except.toOption ∧ (o.isSome ↔ X.isSome) := by
  rcases (optStep_eq_ok X o).mp h with ⟨hX, hO⟩ | ⟨a, hX, hO⟩ <;> subst hX <;> subst hO <;>
    simp [Except.toOption]

/-- Helper: the bag with only the two direct-method fields runs only the
direct method. -/
theorem analyse_direct_only :
    analyse_complete ⟨some 80, some 100, none, none, none, none, none, none, none⟩ =
      .ok ⟨some ((80 / 100 : ℚ) * 100), none, none⟩ := by
  unfold analyse_complete
  refine (analyse_eq_ok _ _ _).mpr ⟨?_, rfl, rfl⟩
  rw [show directCall ⟨some 80, some 100, none, none, none, none, none, none, none⟩ =
        some (rendement_direct 80 100) from rfl,
      direct_ok 80 100 (by norm_num)]
  rfl

/-- C4 counterexample: the bag {energie_utile = 1, energie_consommee = 0}
triggers the direct method, which raises, so `analyse_complete` returns
no mapping at all, refuting the claim for every input bag. -/
theorem analyse_complete_error_counterexample :
    analyse_complete ⟨some 1, some 0, none, none, none, none, none, none, none⟩ =
      .error (.invalidArgument msgEnergie) := by
  unfold analyse_complete
  refine (analyse_eq_err _ _ _).mpr (Or.inl ?_)
  rw [show directCall ⟨some 1, some 0, none, none, none, none, none, none, none⟩ =
        some (rendement_direct 1 0) from rfl,
      direct_err 1 0 le_rfl]
  rfl

/-- C4 (amended: for every input bag on which no triggered method
raises): the returned mapping contains the direct entry iff both
energie_utile and energie_consommee are present, the consumption entry
iff both puissance_utile and consommation_combustible are present, and
the loss entry iff temp_fumees, temp_air and co2_percent are all
present; each present entry equals the result of the corresponding
method call on those inputs, with type_combustible defaulting to
gaz_naturel and utiliser_pci defaulting to true when absent; untriggered
methods are omitted without error. -/
theorem analyse_complete_entries (kw : Kwargs) (res : AnalyseResultats)
    (h : analyse_complete kw = .ok res) :
    res.methode_directe = (directCall kw).bind Except.toOption ∧
    res.mesure_directe = (mesureCall kw).bind Except.toOption ∧
    res.methode_pertes = (pertesCall kw).bind Except.toOption ∧
    (res.methode_directe.isSome ↔
      (kw.energie_utile.isSome ∧ kw.energie_consommee.isSome)) ∧
    (res.mesure_directe.isSome ↔
      (kw.puissance_utile.isSome ∧ kw.consommation_combustible.isSome)) ∧
    (res.methode_pertes.isSome ↔
      (kw.temp_fumees.isSome ∧ kw.temp_air.isSome ∧ kw.co2_percent.isSome)) := by
  unfold analyse_complete at h
  obtain ⟨hD, hM, hP⟩ := (analyse_eq_ok nom_combustible_table kw res).mp h
  obtain ⟨e1, s1⟩ := entry_of_optStep _ _ hD
  obtain ⟨e2, s2⟩ := entry_of_optStep _ _ hM
  obtain ⟨e3, s3⟩ := entry_of_optStep _ _ hP
  refine ⟨e1, e2, e3, ?_, ?_, ?_⟩
  · rw [s1, directCall_isSome]
  · rw [s2, mesureCallWith_isSome]
  · rw [s3, pertesCall_isSome]

/-- C4 witness: `analyse_complete_entries` on the direct-only bag: its
direct entry is exactly the direct call's value. -/
theorem analyse_complete_entries_witness :
    (⟨some ((80 / 100 : ℚ) * 100), none, none⟩ : AnalyseResultats).methode_directe =
      (directCall ⟨some 80, some 100, none, none, none, none, none, none, none⟩).bind
        Except.toOption :=
  (analyse_complete_entries _ _ analyse_direct_only).1

/-- C5: the aggregate raises iff one of its triggered methods raises;
the propagated error is exactly the underlying error, unwrapped; and
when it raises, no result mapping is returned. -/
theorem analyse_complete_propagation (kw : Kwargs) :
    ((∃ e, analyse_complete kw = .error e) ↔
      ((∃ e, directCall kw = some (.error e)) ∨
       (∃ e, mesureCall kw = some (.error e)) ∨
       (∃ e, pertesCall kw = some (.error e)))) ∧
    (∀ e, analyse_complete kw = .error e →
      (directCall kw = some (.error e) ∨ mesureCall kw = some (.error e) ∨
        pertesCall kw = some (.error e)) ∧
      ∀ res, analyse_complete kw ≠ .ok res) := by
  have key : ∀ e, analyse_complete kw = .error e →
      directCall kw = some (.error e) ∨ mesureCall kw = some (.error e) ∨
        pertesCall kw = some (.error e) := by
    intro e h
    unfold analyse_complete at h
    rcases (analyse_eq_err _ _ _).mp h with hD | ⟨_, hM⟩ | ⟨_, _, hP⟩
    · exact Or.inl ((optStep_eq_err _ _).mp hD)
    · exact Or.inr (Or.inl ((optStep_eq_err _ _).mp hM))
    · exact Or.inr (Or.inr ((optStep_eq_err _ _).mp hP))
  refine ⟨⟨?_, ?_⟩, fun e h => ⟨key e h, fun res hres => ?_⟩⟩
  · rintro ⟨e, h⟩
    rcases key e h with h1 | h2 | h3
    exacts [Or.inl ⟨e, h1⟩, Or.inr (Or.inl ⟨e, h2⟩), Or.inr (Or.inr ⟨e, h3⟩)]
  · intro h
    cases hA : analyse_complete kw with
    | error e2 => exact ⟨e2, rfl⟩
    | ok res =>
      exfalso
      unfold analyse_complete at hA
      obtain ⟨hD, hM, hP⟩ := (analyse_eq_ok _ _ _).mp hA
      rcases h with ⟨e, hc⟩ | ⟨e, hc⟩ | ⟨e, hc⟩
      · rcases (optStep_eq_ok _ _).mp hD with ⟨hX, _⟩ | ⟨a, hX, _⟩ <;> rw [hc] at hX <;>
          simp at hX
      · unfold mesureCall at hc
        rcases (optStep_eq_ok _ _).mp hM with ⟨hX, _⟩ | ⟨a, hX, _⟩ <;> rw [hc] at hX <;>
          simp at hX
      · rcases (optStep_eq_ok _ _).mp hP with ⟨hX, _⟩ | ⟨a, hX, _⟩ <;> rw [hc] at hX <;>
          simp at hX
  · rw [h] at hres
    exact Except.noConfusion hres

/-- Helper: a bag where the direct method succeeds but the triggered loss
method raises on CO2 = 0 makes the whole aggregate raise that error. -/
theorem analyse_kw5_err :
    analyse_complete ⟨some 80, some 100, none, none, some 180, some 20, some 0, none, none⟩ =
      .error (.invalidArgument msgCO2) := by
  unfold analyse_complete
  refine (analyse_eq_err _ _ _).mpr
    (Or.inr (Or.inr ⟨⟨some ((80 / 100 : ℚ) * 100), ?_⟩, ⟨none, rfl⟩, ?_⟩))
  · rw [show directCall
          ⟨some 80, some 100, none, none, some 180, some 20, some 0, none, none⟩ =
          some (rendement_direct 80 100) from rfl,
        direct_ok 80 100 (by norm_num)]
    rfl
  · rw [show pertesCall
          ⟨some 80, some 100, none, none, some 180, some 20, some 0, none, none⟩ =
          some (rendement_par_pertes 180 20 0 "gaz_naturel") from rfl,
        pertes_err_co2 180 20 0 "gaz_naturel" ⟨0.66, 0.009⟩ rfl le_rfl]
    rfl

/-- C5 witness: `analyse_complete_propagation` on the bag whose loss
method raises while the direct method succeeds: the propagated error is
the loss method's own. -/
theorem analyse_complete_propagation_witness :
    directCall ⟨some 80, some 100, none, none, some 180, some 20, some 0, none, none⟩ =
        some (.error (.invalidArgument msgCO2)) ∨
    mesureCall ⟨some 80, some 100, none, none, some 180, some 20, some 0, none, none⟩ =
        some (.error (.invalidArgument msgCO2)) ∨
    pertesCall ⟨some 80, some 100, none, none, some 180, some 20, some 0, none, none⟩ =
        some (.error (.invalidArgument msgCO2)) :=
  ((analyse_complete_propagation _).2 _ analyse_kw5_err).1

/-- C9: every operation is deterministic and stateless: one call returns
the calculator state unchanged, any call sequence leaves a fresh
calculator in its initial state, and the output of an operation does not
depend on the call sequence that preceded it. -/
theorem operations_stateless (st : CalculateurRendementChaudiere) (op : Op)
    (ops1 ops2 : List Op) :
    (runOp st op).2 = st ∧
    runOps st ops1 = st ∧
    (runOp (runOps initCalculateur ops1) op).1 = (runOp (runOps initCalculateur ops2) op).1 := by
  have hpres : ∀ s : CalculateurRendementChaudiere, ∀ o : Op, (runOp s o).2 = s := by
    intro s o
    cases o <;> rfl
  have hrun : ∀ l : List Op, ∀ s : CalculateurRendementChaudiere, runOps s l = s := by
    intro l
    induction l with
    | nil => intro s; rfl
    | cons a t ih =>
      intro s
      show runOps (runOp s a).2 t = s
      rw [hpres s a, ih s]
  exact ⟨hpres st op, hrun ops1 st, by rw [hrun ops1, hrun ops2]⟩
